import Mathlib

/-!
Verification of the cmdrnafold process adapter (src/cmdrnafold/RNA.py).

The module wraps the external RNAFold command-line tool: it validates an RNA
sequence at construction time, spawns one subprocess per fold request, writes
the sequence plus the sentinel line to the subprocess standard input, and
parses the tool's free-text report into a pair of a structure string and a
minimum free energy value.

The embedding below is shallow: the pure fragments of the Python code
(validation, output parsing) become Lean functions over `String`, and the
process interaction of `RNArunner.mfe` becomes a function from a description
of the subprocess behaviour (spawn outcome, exit code, captured streams) to
a result together with the final process state and the list of observable
process events.  Parsed numeric energy values are kept as exact decimals
(signed mantissa and fraction-digit count) whose rational value is given by
`decValue`.
-/

namespace Cmdrnafold

/-- Characters treated as whitespace by Python `str.strip()`.  We model the
ASCII fragment (space, tab, newline, carriage return, vertical tab, form
feed); the tool output handled by the adapter is ASCII. -/
def pyIsSpace (c : Char) : Bool :=
  c = ' ' || c = '\t' || c = '\n' || c = '\r' || c = Char.ofNat 11 || c = Char.ofNat 12

/-- Python `str.strip()` on a list of characters: drop leading and trailing
whitespace. -/
def pyStripList (l : List Char) : List Char :=
  ((l.dropWhile pyIsSpace).reverse.dropWhile pyIsSpace).reverse

/-- Python `str.strip()`. -/
def pyStrip (s : String) : String :=
  String.mk (pyStripList s.toList)

/-- Python `str.upper()` on a single character.  We model the ASCII case
mapping.  Python applies the full Unicode uppercase mapping, but no character
outside `a`-`z` has an uppercase form equal to an ASCII letter in
`{A, U, G, C}` (the only Unicode character whose uppercase form is an ASCII
letter other than via `a`-`z` is the long s, which maps to `S`), so the
validation test `c.upper() in set("AUGC")` agrees with this model on every
input. -/
def pyUpper (c : Char) : Char :=
  if 'a' ≤ c && c ≤ 'z' then Char.ofNat (c.toNat - 32) else c

/-- Python `str.upper()` on a whole string. -/
def pyUpperStr (s : String) : String :=
  String.mk (s.toList.map pyUpper)

/-- The set `set("AUGC")` of valid nucleotide letters from
`RNArunner.__init__`. -/
def validNucleotides : List Char := ['A', 'U', 'G', 'C']

/-- The validation test of `RNArunner.__init__`:
`all(c.upper() in valid_nucleotides for c in sequence)`. -/
def validSequence (s : String) : Bool :=
  s.toList.all (fun c => validNucleotides.contains (pyUpper c))

/-- Error values raised by the adapter.  The Python code raises a single
exception class `RNAFoldError` with distinct messages; we keep one
constructor per raise site, carrying the data interpolated into the
message. -/
inductive FoldErr where
  /-- Raised by `__init__`: empty, missing or non-string sequence, or a
  character outside the nucleotide alphabet. -/
  | invalidSequence (msg : String)
  /-- Raised by `_ensure_process` when the subprocess cannot be started. -/
  | startFailure (msg : String)
  /-- Raised by `mfe` when the process exits with a non-zero return code;
  carries the return code and the captured standard-error text (or the
  placeholder). -/
  | processError (returncode : Int) (errMsg : String)
  /-- Raised by `mfe` when the decoded output has fewer than 3 lines
  ("Unexpected RNAFold output format"). -/
  | badFormat (raw : String)
  /-- Raised by `mfe` when no structure line, or no following energy line,
  is found ("Could not parse structure from output"). -/
  | noStructure (raw : String)
  /-- Raised by `mfe` when the energy line yields no parsable number
  ("Could not parse MFE from ..."). -/
  | badEnergy (line : String)
  /-- Raised by `mfe` when `communicate` raises `asyncio.TimeoutError`. -/
  | timedOut
  deriving Repr, DecidableEq

/-- The error kinds named by the specification (section 7).  Both
`badFormat` and `noStructure` surface as `MalformedOutput`. -/
inductive ErrKind where
  | invalidSequenceKind
  | processStartFailureKind
  | processErrorKind
  | malformedOutputKind
  | energyParseKind
  | timeoutKind
  deriving Repr, DecidableEq

/-- Classify an error constructor by specification kind. -/
def FoldErr.kind : FoldErr → ErrKind
  | .invalidSequence _ => .invalidSequenceKind
  | .startFailure _ => .processStartFailureKind
  | .processError _ _ => .processErrorKind
  | .badFormat _ => .malformedOutputKind
  | .noStructure _ => .malformedOutputKind
  | .badEnergy _ => .energyParseKind
  | .timedOut => .timeoutKind

/-- Kind of the error of a failed computation, `none` on success. -/
def errKind {α : Type} : Except FoldErr α → Option ErrKind
  | .ok _ => none
  | .error e => some e.kind

/-- A Python value passed as the `sequence` argument: `None`, some non-string
value, or a string.  `RNArunner.__init__` rejects the first two with the
same message as the empty string (both fail the
`not sequence or not isinstance(sequence, str)` test). -/
inductive PyInput where
  | pyNone
  | nonString
  | pyStr (s : String)

/-- The runner object produced by `RNArunner.__init__`.  `hashKey` models the
stored `self._hash = hash(self.cmd + self.sequence)`: within one Python
process, equal strings hash equal, so we keep the concatenated string itself
as the identity key.  `objId` models the Python object identity; the class
defines `__hash__` but no `__eq__`, so `==` on runners falls back to object
identity. -/
structure RNArunner where
  sequence : String
  cmd : String
  hashKey : String
  objId : Nat
  deriving Repr, DecidableEq

/-- Python `==` on runner objects: with no `__eq__` defined, the default
object-identity comparison applies. -/
def pyEq (a b : RNArunner) : Bool :=
  a.objId == b.objId

/-- Embedding of `RNArunner.__init__` (construction; the spec's `create`).
The extra `objId` argument models the fresh object identity Python assigns
to each constructed object: distinct constructions receive distinct ids. -/
def create (objId : Nat) : PyInput → Except FoldErr RNArunner
  | .pyNone => .error (.invalidSequence "Sequence must be a non-empty string")
  | .nonString => .error (.invalidSequence "Sequence must be a non-empty string")
  | .pyStr s =>
    if s = "" then
      .error (.invalidSequence "Sequence must be a non-empty string")
    else if validSequence s then
      .ok { sequence := pyUpperStr s
            cmd := "RNAFold --noPS"
            hashKey := "RNAFold --noPS" ++ pyUpperStr s
            objId := objId }
    else
      .error (.invalidSequence "Invalid nucleotides in sequence. Only A, U, G, C allowed.")

/-- Substring occurrence on character lists (the Python `in` operator on
strings): `pat` occurs contiguously. -/
def listContains (pat : List Char) : List Char → Bool
  | [] => pat.isEmpty
  | c :: rest => pat.isPrefixOf (c :: rest) || listContains pat rest

/-- The Python substring test `pat in s`. -/
def pyContains (pat s : String) : Bool :=
  listContains pat.toList s.toList

/-- Numeric value of a list of ASCII digits. -/
def digitsToNat (l : List Char) : Nat :=
  l.foldl (fun a c => 10 * a + (c.toNat - '0'.toNat)) 0

/-- Python `float(s)`, restricted to the decimal fragment that the adapter
ever feeds it: surrounding whitespace, an optional sign, and digits with an
optional decimal point (at least one digit overall).  Exponent forms,
`inf`/`nan` and underscore separators, which Python would also accept, never
arise from the tool's energy lines and are treated as parse failures.  The
parsed value is kept as an exact decimal, a pair of a signed mantissa and a
number of fraction digits, so that the whole parsing pipeline stays
computable by the kernel; its numeric value is `decValue`. -/
def pyFloat (s : String) : Option (Int × Nat) :=
  let t := pyStripList s.toList
  let signBody : Int × List Char :=
    match t with
    | '-' :: rest => (-1, rest)
    | '+' :: rest => (1, rest)
    | _ => (1, t)
  let intPart := signBody.2.takeWhile Char.isDigit
  match signBody.2.drop intPart.length with
  | [] =>
    if intPart.isEmpty then none
    else some (signBody.1 * (digitsToNat intPart : Int), 0)
  | '.' :: frac =>
    if frac.all Char.isDigit && (!intPart.isEmpty || !frac.isEmpty) then
      some (signBody.1 *
        ((digitsToNat intPart : Int) * (10 : Int) ^ frac.length + (digitsToNat frac : Int)),
        frac.length)
    else none
  | _ => none

/-- Numeric value of a parsed decimal: mantissa divided by ten to the number
of fraction digits. -/
def decValue (d : Int × Nat) : ℚ :=
  (d.1 : ℚ) / (10 : ℚ) ^ d.2

/-- Greedy match of `\d+\.?\d*` at the head of the list: one or more digits,
then an optional dot followed by further digits.  The class `\d` is modelled
as the ASCII digits. -/
def numCore (cs : List Char) : Option (List Char) :=
  let ds := cs.takeWhile Char.isDigit
  if ds.isEmpty then none
  else
    match cs.drop ds.length with
    | '.' :: rest => some (ds ++ '.' :: rest.takeWhile Char.isDigit)
    | _ => some ds

/-- Match of the regular expression `-?\d+\.?\d*` anchored at the head of
the list. -/
def numTokenAt : List Char → Option (List Char)
  | '-' :: rest => (numCore rest).map (fun t => '-' :: t)
  | cs => numCore cs

/-- Embedding of `re.search` for the pattern `-?\d+\.?\d*`: the leftmost
match in the line, scanning character positions left to right. -/
def firstNumber : List Char → Option String
  | [] => none
  | c :: rest =>
    match numTokenAt (c :: rest) with
    | some t => some (String.mk t)
    | none => firstNumber rest

/-- Fuel-driven worker for Python `str.split(sep)` with a non-empty
separator: at each character position, either the separator is a prefix
(cut here and continue past it) or the character is prepended to the
current piece.  The fuel, instantiated with the length of the list, only
makes the recursion structural; it never runs out. -/
def pySplitAux (sep : List Char) : Nat → List Char → List (List Char)
  | _, [] => [[]]
  | 0, l => [l]
  | fuel + 1, c :: rest =>
    if sep.isPrefixOf (c :: rest) then
      [] :: pySplitAux sep fuel ((c :: rest).drop sep.length)
    else
      match pySplitAux sep fuel rest with
      | [] => [[c]]
      | h :: t => (c :: h) :: t

/-- Python `s.split(sep)` for a non-empty separator: splits at every
(non-overlapping, leftmost) occurrence, keeping empty pieces. -/
def pySplit (sep s : String) : List String :=
  (pySplitAux sep.toList s.toList.length s.toList).map String.mk

/-- Python `s.startswith(pre)`. -/
def pyStartsWith (pre s : String) : Bool :=
  pre.toList.isPrefixOf s.toList

/-- Python `s.endswith(suf)`. -/
def pyEndsWith (suf s : String) : Bool :=
  suf.toList.isSuffixOf s.toList

/-- Extraction strategy (a) of `RNArunner.mfe`, selected when the energy
line contains "minimum free energy": the text between the first `=` and the
first subsequent "kcal/mol" is stripped and passed to `float`.  When the
line has no `=`, the subscript `split("=")[1]` raises `IndexError`, which
the caller maps to the energy parse failure. -/
def strategyA (line : String) : Option (Int × Nat) :=
  match (pySplit "=" line).get? 1 with
  | none => none
  | some part => pyFloat (pyStrip ((pySplit "kcal/mol" part).headD ""))

/-- Extraction strategy (b), selected otherwise when the line starts with
`(` and ends with `)`: the inner text `line[1:-1]` is stripped and passed to
`float`. -/
def strategyB (line : String) : Option (Int × Nat) :=
  pyFloat (pyStrip (String.mk ((line.toList.drop 1).dropLast)))

/-- Extraction strategy (c), the fallback: `re.search` for the first signed
decimal number in the line; its match is passed to `float`. -/
def strategyC (line : String) : Option (Int × Nat) :=
  match firstNumber line.toList with
  | some t => pyFloat t
  | none => none

/-- The energy-extraction block of `RNArunner.mfe`.  Exactly one strategy is
selected by the shape of the line (an if/elif/else chain); a failure inside
the selected branch becomes the "Could not parse MFE" error, with no
fall-through to a later strategy. -/
def extractEnergy (line : String) : Option (Int × Nat) :=
  if pyContains "minimum free energy" line then strategyA line
  else if pyStartsWith "(" line && pyEndsWith ")" line then strategyB line
  else strategyC line

/-- Characters allowed in a structure line: `(`, `)`, `.`. -/
def isStructChar (c : Char) : Bool :=
  c = '(' || c = ')' || c = '.'

/-- The structure-scanning loop of `RNArunner.mfe`: find the first line
whose stripped text is non-empty and drawn entirely from `(`, `)`, `.`;
return that stripped text together with the stripped following line when
one exists (the Python loop sets `energy_line` only when `i + 1 < len`). -/
def scanLines : List String → Option (String × Option String)
  | [] => none
  | l :: rest =>
    if pyStrip l != "" && (pyStrip l).toList.all isStructChar then
      some (pyStrip l, match rest with
                       | [] => none
                       | next :: _ => some (pyStrip next))
    else scanLines rest

/-- The line decomposition `stdout.decode().strip().split('\n')` of
`RNArunner.mfe`. -/
def pyLines (raw : String) : List String :=
  pySplit "\n" (pyStrip raw)

/-- The output-parsing part of `RNArunner.mfe`, applied to the decoded
standard output after a zero exit status: fewer than 3 lines is the
"Unexpected RNAFold output format" failure; a missing structure line, a
structure line with no following line, or a following line that strips to
the empty string is the "Could not parse structure" failure; otherwise the
energy is extracted from the following line. -/
def parseOutput (raw : String) : Except FoldErr (String × (Int × Nat)) :=
  if (pyLines raw).length < 3 then .error (.badFormat raw)
  else
    match scanLines (pyLines raw) with
    | none => .error (.noStructure raw)
    | some (_, none) => .error (.noStructure raw)
    | some (s, some e) =>
      if e = "" then .error (.noStructure raw)
      else
        match extractEnergy e with
        | some q => .ok (s, q)
        | none => .error (.badEnergy e)

/-- The message text attached to each raise site, as formatted by the
Python f-strings (for `badEnergy` the code further appends the text of the
caught exception, which we do not model; no claim inspects it). -/
def FoldErr.message : FoldErr → String
  | .invalidSequence m => m
  | .startFailure m => m
  | .processError rc m => "RNAFold failed with return code " ++ toString rc ++ ": " ++ m
  | .badFormat raw => "Unexpected RNAFold output format: " ++ raw
  | .noStructure raw => "Could not parse structure from output: " ++ raw
  | .badEnergy line => "Could not parse MFE from: '" ++ line ++ "'"
  | .timedOut => "RNAFold process timed out"

/-- Final state of a created subprocess as observable through the asyncio
process handle: whether the OS process is still running, and the
`returncode` attribute. -/
structure ProcState where
  running : Bool
  returncode : Option Int
  deriving Repr, DecidableEq

/-- Behaviour of one subprocess invocation, fixed in advance by the
environment: whether the spawn call raises (`OSError` or
`SubprocessError`), whether `communicate` raises (`asyncio.TimeoutError`)
instead of completing, and otherwise the exit code and the captured output
streams.  `termCode` is the return code the OS reports after a forced
`terminate` and `wait`. -/
structure ProcBehavior where
  spawnFails : Bool
  spawnErr : String
  commRaises : Bool
  exitCode : Int
  stdoutData : String
  stderrData : String
  termCode : Int

/-- Observable process actions performed during a fold call, in order. -/
inductive Event where
  | spawn (cmd : String)
  | stdinWrite (data : String)
  | stdinClose
  | terminate
  | wait
  deriving Repr, DecidableEq

/-- Embedding of `RNArunner.mfe` on a runner whose subprocess has not been
created yet (`self._proc is None`, the state right after construction).
`_ensure_process` spawns the fixed command with the standard streams piped,
writes the sequence followed by the sentinel batch terminator `@`, and
closes standard input; `mfe` then waits for the process with `communicate`,
checks the return code, and parses the captured standard output.  The
`finally` block terminates and waits on the process exactly when its
`returncode` is still unset, which among the modelled paths happens only
when `communicate` raised; when `communicate` completed, the process has
already exited.  A failure of the stdin write surfaces only through a
broken pipe, that is, after the process has already exited, so it does not
add a path on which the process would still be running.  The function
returns the call result, the final state of the subprocess when one was
created, and the list of process events. -/
def mfeRun (r : RNArunner) (b : ProcBehavior) :
    Except FoldErr (String × (Int × Nat)) × Option ProcState × List Event :=
  if b.spawnFails then
    (.error (.startFailure ("Failed to start RNAFold process: " ++ b.spawnErr)), none, [])
  else if b.commRaises then
    (.error .timedOut,
     some { running := false, returncode := some b.termCode },
     [Event.spawn r.cmd, Event.stdinWrite (r.sequence ++ "\n@\n"), Event.stdinClose,
      Event.terminate, Event.wait])
  else if b.exitCode ≠ 0 then
    (.error (.processError b.exitCode
        (if b.stderrData = "" then "Unknown error" else b.stderrData)),
     some { running := false, returncode := some b.exitCode },
     [Event.spawn r.cmd, Event.stdinWrite (r.sequence ++ "\n@\n"), Event.stdinClose])
  else
    (parseOutput b.stdoutData,
     some { running := false, returncode := some b.exitCode },
     [Event.spawn r.cmd, Event.stdinWrite (r.sequence ++ "\n@\n"), Event.stdinClose])

/-- SyncRNArunner construction: its `__init__` is
`self._runner = RNArunner(sequence)`, so validation is the delegated
constructor. -/
def syncCreate (objId : Nat) (inp : PyInput) : Except FoldErr RNArunner :=
  create objId inp

/-- SyncRNArunner.mfe: `loop.run_until_complete(self._runner.mfe())`.
Running the coroutine to completion on an event loop yields exactly the
coroutine's result and effects; only the suspension mechanism differs. -/
def syncMfeRun (r : RNArunner) (b : ProcBehavior) :
    Except FoldErr (String × (Int × Nat)) × Option ProcState × List Event :=
  mfeRun r b

/-! Evaluation checks of the embedding on concrete inputs. -/

example : create 0 (.pyStr "augc") =
    .ok { sequence := "AUGC", cmd := "RNAFold --noPS",
          hashKey := "RNAFold --noPSAUGC", objId := 0 } := rfl

example : errKind (create 0 (.pyStr "AUG X")) = some .invalidSequenceKind := by decide

example : errKind (create 0 (.pyStr "")) = some .invalidSequenceKind := by decide

example : pyFloat "-4.20" = some (-420, 2) := by decide

example : decValue (-420, 2) = -(21/5 : ℚ) := by norm_num [decValue]

example : firstNumber "minimum free energy -4.20 kcal/mol".toList = some "-4.20" := rfl

example : parseOutput "CGCAGGGAUACCCGCG\n((((....))))\n( -4.20)\n" =
    .ok ("((((....))))", (-420, 2)) := rfl

example : parseOutput "CGCAGGGAUACCCGCG\n((((....))))\nminimum free energy =  -9.80 kcal/mol" =
    .ok ("((((....))))", (-980, 2)) := rfl

example : parseOutput "AAA\n...\nminimum free energy -4.20 kcal/mol" =
    .error (.badEnergy "minimum free energy -4.20 kcal/mol") := rfl

/-! Helper lemmas. -/

theorem isPrefixOf_self_append (l r : List Char) : l.isPrefixOf (l ++ r) = true := by
  induction l with
  | nil => cases r <;> rfl
  | cons c t ih => simp [List.isPrefixOf, ih]

theorem listContains_inner (a p c : List Char) :
    listContains p (a ++ (p ++ c)) = true := by
  induction a with
  | nil =>
    cases hp : p with
    | nil =>
      cases c with
      | nil => rfl
      | cons x xs => simp [listContains, List.isPrefixOf]
    | cons q qs =>
      simp only [List.nil_append, List.cons_append, listContains]
      have hpre : (q :: qs).isPrefixOf (q :: (qs ++ c)) = true :=
        isPrefixOf_self_append (q :: qs) c
      simp [hpre]
  | cons x xs ih =>
    simp only [List.cons_append, listContains]
    simp [ih]

theorem toList_append (s t : String) : (s ++ t).toList = s.toList ++ t.toList := by
  cases s
  cases t
  rfl

theorem pyContains_inner (a p c : String) : pyContains p (a ++ p ++ c) = true := by
  unfold pyContains
  rw [toList_append, toList_append, List.append_assoc]
  exact listContains_inner a.toList p.toList c.toList

theorem pyContains_suffix (a p : String) : pyContains p (a ++ p) = true := by
  unfold pyContains
  rw [toList_append]
  have h := listContains_inner a.toList p.toList []
  rwa [List.append_nil] at h

theorem scanLines_none (ls : List String)
    (h : ∀ l ∈ ls, ¬ ((pyStrip l).toList.all isStructChar = true)) :
    scanLines ls = none := by
  induction ls with
  | nil => rfl
  | cons l rest ih =>
    have hl := h l (List.mem_cons_self l rest)
    have hrest : ∀ x ∈ rest, ¬ ((pyStrip x).toList.all isStructChar = true) :=
      fun x hx => h x (List.mem_cons_of_mem l hx)
    have hcond : (pyStrip l != "" && (pyStrip l).toList.all isStructChar) = false := by
      cases hall : (pyStrip l).toList.all isStructChar with
      | true => exact absurd hall hl
      | false => simp
    simp only [scanLines, hcond, Bool.false_eq_true, if_false]
    exact ih hrest

theorem create_ok_inv (i : Nat) (s : String) (r : RNArunner)
    (h : create i (.pyStr s) = .ok r) :
    s ≠ "" ∧ validSequence s = true ∧
      r = { sequence := pyUpperStr s, cmd := "RNAFold --noPS",
            hashKey := "RNAFold --noPS" ++ pyUpperStr s, objId := i } := by
  simp only [create] at h
  by_cases hs : s = ""
  · rw [if_pos hs] at h
    cases h
  · rw [if_neg hs] at h
    by_cases hv : validSequence s = true
    · rw [if_pos hv] at h
      cases h
      exact ⟨hs, hv, rfl⟩
    · rw [if_neg hv] at h
      cases h

theorem mfeRun_result_ignores_runner (r r' : RNArunner) (b : ProcBehavior) :
    (mfeRun r b).1 = (mfeRun r' b).1 := by
  unfold mfeRun
  by_cases h1 : b.spawnFails
  · simp [h1]
  · by_cases h2 : b.commRaises
    · simp [h1, h2]
    · by_cases h3 : b.exitCode ≠ 0
      · simp [h1, h2, h3]
      · simp [h1, h2, h3]

/-! Claim theorems. -/

/-- C1: `create` succeeds exactly on non-empty strings every character of
which uppercases into {A, U, G, C}; on success the stored sequence is the
uppercase canonicalization of the input; the empty string, `None`,
non-string values, and any string with a character outside the alphabet
after case-folding fail with the `InvalidSequence` error.  `create` is a
pure function whose type produces no process event, so every failure
happens before any process is spawned. -/
theorem claim_C1 (i : Nat) (inp : PyInput) :
    (∀ r, create i inp = .ok r →
        ∃ s, inp = .pyStr s ∧ s ≠ "" ∧ validSequence s = true ∧
          r.sequence = pyUpperStr s) ∧
    (∀ s, inp = .pyStr s → s ≠ "" → validSequence s = true →
        create i inp = .ok { sequence := pyUpperStr s, cmd := "RNAFold --noPS",
                             hashKey := "RNAFold --noPS" ++ pyUpperStr s, objId := i }) ∧
    ((∀ s, inp = .pyStr s → s = "" ∨ validSequence s = false) →
        errKind (create i inp) = some .invalidSequenceKind) := by
  refine ⟨?_, ?_, ?_⟩
  · intro r hr
    cases inp with
    | pyNone => cases hr
    | nonString => cases hr
    | pyStr s =>
      obtain ⟨hs, hv, hr'⟩ := create_ok_inv i s r hr
      exact ⟨s, rfl, hs, hv, by rw [hr']⟩
  · intro s hins hs hv
    cases hins
    simp only [create]
    rw [if_neg hs, if_pos hv]
  · intro h
    cases inp with
    | pyNone => rfl
    | nonString => rfl
    | pyStr s =>
      rcases h s rfl with hs | hv
      · simp only [create]
        rw [if_pos hs]
        rfl
      · simp only [create]
        by_cases hs : s = ""
        · rw [if_pos hs]
          rfl
        · rw [if_neg hs, if_neg (by rw [hv]; exact fun hh => by cases hh)]
          rfl

/-- Witness for C1: a mixed-case valid sequence succeeds with its uppercase
canonicalization; a sequence with a space fails with `InvalidSequence`. -/
theorem claim_C1_witness :
    create 0 (.pyStr "augc") =
        .ok { sequence := "AUGC", cmd := "RNAFold --noPS",
              hashKey := "RNAFold --noPSAUGC", objId := 0 } ∧
    errKind (create 1 (.pyStr "AUG X")) = some .invalidSequenceKind :=
  ⟨(claim_C1 0 (.pyStr "augc")).2.1 "augc" rfl (by decide) (by decide),
   (claim_C1 1 (.pyStr "AUG X")).2.2 (by
      intro s hs
      cases hs
      right
      decide)⟩

theorem string_append_assoc (a b c : String) : (a ++ b) ++ c = a ++ (b ++ c) := by
  cases a with
  | mk x =>
    cases b with
    | mk y =>
      cases c with
      | mk z => exact congrArg String.mk (List.append_assoc x y z)

/-- C2: on a runner built by `create` whose subprocess has not started yet
and whose spawn succeeds, the fold performs exactly one spawn, of the fixed
command line "RNAFold --noPS" — the same literal for every sequence, so no
sequence-derived content appears in the command — and its standard-input
interaction is exactly one write of the canonicalized sequence followed by
a newline and the single-line sentinel "@", after which the stream is
closed; any remaining events are only the cleanup terminate/wait. -/
theorem claim_C2 (i : Nat) (s : String) (r : RNArunner) (b : ProcBehavior)
    (hr : create i (.pyStr s) = .ok r) (hb : b.spawnFails = false) :
    ∃ tl, (mfeRun r b).2.2 =
        Event.spawn "RNAFold --noPS" :: Event.stdinWrite (pyUpperStr s ++ "\n@\n") ::
          Event.stdinClose :: tl ∧
      ∀ e ∈ tl, e = Event.terminate ∨ e = Event.wait := by
  obtain ⟨hs, hv, hr'⟩ := create_ok_inv i s r hr
  subst hr'
  by_cases hc : b.commRaises = true
  · refine ⟨[Event.terminate, Event.wait], ?_, ?_⟩
    · simp [mfeRun, hb, hc]
    · intro e he
      simp at he
      exact he
  · refine ⟨[], ?_, fun e he => absurd he (by simp)⟩
    by_cases hx : b.exitCode ≠ 0
    · simp [mfeRun, hb, hc, hx]
    · simp [mfeRun, hb, hc, hx]

/-- Witness for C2 at the sequence "AUGC" and a quietly succeeding
subprocess. -/
theorem claim_C2_witness :
    ∃ tl, (mfeRun { sequence := "AUGC", cmd := "RNAFold --noPS",
                    hashKey := "RNAFold --noPSAUGC", objId := 0 }
            { spawnFails := false, spawnErr := "", commRaises := false, exitCode := 0,
              stdoutData := "", stderrData := "", termCode := 0 }).2.2 =
        Event.spawn "RNAFold --noPS" :: Event.stdinWrite (pyUpperStr "AUGC" ++ "\n@\n") ::
          Event.stdinClose :: tl ∧
      ∀ e ∈ tl, e = Event.terminate ∨ e = Event.wait :=
  claim_C2 0 "AUGC" _ _ rfl rfl

/-- C3: on every path of a fold call — spawn failure, communicate failure,
non-zero exit, parse failure or success — the final state of any subprocess
belonging to the call has `running = false`: either `communicate` already
waited for exit, or the `finally` block terminated and waited on it. -/
theorem claim_C3 (r : RNArunner) (b : ProcBehavior) :
    ∀ st ∈ (mfeRun r b).2.1, st.running = false := by
  intro st hst
  by_cases h1 : b.spawnFails = true
  · simp [mfeRun, h1] at hst
  · by_cases h2 : b.commRaises = true
    · simp [mfeRun, h1, h2] at hst
      rw [← hst]
    · by_cases h3 : b.exitCode ≠ 0
      · simp [mfeRun, h1, h2, h3] at hst
        rw [← hst]
      · simp [mfeRun, h1, h2, h3] at hst
        rw [← hst]

/-- Witness for C3: the sole process state left by a successful call has
`running = false`. -/
theorem claim_C3_witness :
    ({ running := false, returncode := some 0 } : ProcState) ∈
        (mfeRun { sequence := "AUGC", cmd := "RNAFold --noPS",
                  hashKey := "RNAFold --noPSAUGC", objId := 0 }
          { spawnFails := false, spawnErr := "", commRaises := false, exitCode := 0,
            stdoutData := "", stderrData := "", termCode := 0 }).2.1 ∧
    ({ running := false, returncode := some 0 } : ProcState).running = false :=
  have hmem : ({ running := false, returncode := some 0 } : ProcState) ∈
      (mfeRun { sequence := "AUGC", cmd := "RNAFold --noPS",
                hashKey := "RNAFold --noPSAUGC", objId := 0 }
        { spawnFails := false, spawnErr := "", commRaises := false, exitCode := 0,
          stdoutData := "", stderrData := "", termCode := 0 }).2.1 := rfl
  ⟨hmem, claim_C3 _ _ _ hmem⟩

/-- C5: when the subprocess succeeds with exit status zero but its output
has fewer than 3 lines, or no line whose stripped characters are drawn
entirely from the structure alphabet, the fold fails with an error of the
`MalformedOutput` kind. -/
theorem claim_C5 (r : RNArunner) (b : ProcBehavior)
    (h1 : b.spawnFails = false) (h2 : b.commRaises = false) (h3 : b.exitCode = 0)
    (h4 : (pyLines b.stdoutData).length < 3 ∨
          ∀ l ∈ pyLines b.stdoutData, ¬ ((pyStrip l).toList.all isStructChar = true)) :
    errKind (mfeRun r b).1 = some .malformedOutputKind := by
  have hres : (mfeRun r b).1 = parseOutput b.stdoutData := by
    simp [mfeRun, h1, h2, h3]
  rw [hres]
  by_cases hlen : (pyLines b.stdoutData).length < 3
  · simp only [parseOutput, if_pos hlen]
    rfl
  · rcases h4 with h4 | h4
    · exact absurd h4 hlen
    · have hsc := scanLines_none _ h4
      simp only [parseOutput, if_neg hlen, hsc]
      rfl

/-- Witness for C5: a three-line output with no structure line fails as
malformed. -/
theorem claim_C5_witness :
    errKind (mfeRun { sequence := "AUGC", cmd := "RNAFold --noPS",
                      hashKey := "RNAFold --noPSAUGC", objId := 0 }
        { spawnFails := false, spawnErr := "", commRaises := false, exitCode := 0,
          stdoutData := "alpha\nbeta\ngamma", stderrData := "", termCode := 0 }).1 =
      some .malformedOutputKind :=
  claim_C5 _ _ rfl rfl rfl (Or.inr (by decide))

/-- C6: whenever the subprocess exits with a non-zero status, the fold
fails with the process error carrying the exit code and the captured
standard-error text — or the placeholder "Unknown error" when standard
error is empty — and the rendered message contains both the exit code and
that captured text. -/
theorem claim_C6 (r : RNArunner) (b : ProcBehavior)
    (h1 : b.spawnFails = false) (h2 : b.commRaises = false) (h3 : b.exitCode ≠ 0) :
    (mfeRun r b).1 = .error (.processError b.exitCode
        (if b.stderrData = "" then "Unknown error" else b.stderrData)) ∧
    pyContains (toString b.exitCode)
      (FoldErr.processError b.exitCode
        (if b.stderrData = "" then "Unknown error" else b.stderrData)).message = true ∧
    pyContains (if b.stderrData = "" then "Unknown error" else b.stderrData)
      (FoldErr.processError b.exitCode
        (if b.stderrData = "" then "Unknown error" else b.stderrData)).message = true := by
  refine ⟨by simp [mfeRun, h1, h2, h3], ?_, ?_⟩
  · show pyContains (toString b.exitCode)
      ("RNAFold failed with return code " ++ toString b.exitCode ++ ": " ++
        (if b.stderrData = "" then "Unknown error" else b.stderrData)) = true
    rw [string_append_assoc ("RNAFold failed with return code " ++ toString b.exitCode)
      ": " (if b.stderrData = "" then "Unknown error" else b.stderrData)]
    exact pyContains_inner "RNAFold failed with return code " (toString b.exitCode) _
  · exact pyContains_suffix
      ("RNAFold failed with return code " ++ toString b.exitCode ++ ": ") _

/-- Witness for C6 at exit code 1 and captured text "Error message". -/
theorem claim_C6_witness :
    (mfeRun { sequence := "AUGC", cmd := "RNAFold --noPS",
              hashKey := "RNAFold --noPSAUGC", objId := 0 }
        { spawnFails := false, spawnErr := "", commRaises := false, exitCode := 1,
          stdoutData := "", stderrData := "Error message", termCode := 0 }).1 =
      .error (.processError 1
        (if ("Error message" : String) = "" then "Unknown error" else "Error message")) ∧
    pyContains (toString (1 : Int))
      (FoldErr.processError 1
        (if ("Error message" : String) = "" then "Unknown error" else "Error message")).message
      = true ∧
    pyContains (if ("Error message" : String) = "" then "Unknown error" else "Error message")
      (FoldErr.processError 1
        (if ("Error message" : String) = "" then "Unknown error" else "Error message")).message
      = true :=
  claim_C6 _ _ rfl rfl (by decide)

/-- C7 counterexample: two runners constructed from the same sequence
"AUGC" have equal hash keys, but they are distinct objects and the class
defines `__hash__` without `__eq__`, so the default object-identity
comparison makes them unequal — refuting "compare equal". -/
theorem claim_C7_counterexample :
    create 0 (.pyStr "AUGC") =
        .ok { sequence := "AUGC", cmd := "RNAFold --noPS",
              hashKey := "RNAFold --noPSAUGC", objId := 0 } ∧
    create 1 (.pyStr "AUGC") =
        .ok { sequence := "AUGC", cmd := "RNAFold --noPS",
              hashKey := "RNAFold --noPSAUGC", objId := 1 } ∧
    ({ sequence := "AUGC", cmd := "RNAFold --noPS", hashKey := "RNAFold --noPSAUGC",
       objId := 0 } : RNArunner).hashKey =
      ({ sequence := "AUGC", cmd := "RNAFold --noPS", hashKey := "RNAFold --noPSAUGC",
         objId := 1 } : RNArunner).hashKey ∧
    pyEq { sequence := "AUGC", cmd := "RNAFold --noPS", hashKey := "RNAFold --noPSAUGC",
           objId := 0 }
         { sequence := "AUGC", cmd := "RNAFold --noPS", hashKey := "RNAFold --noPSAUGC",
           objId := 1 } = false :=
  ⟨rfl, rfl, rfl, rfl⟩

/-- C7 amended: two runners constructed from the same canonicalized
sequence (and the same fixed command) have equal hash keys; Python equality
falls back to object identity because the class defines `__hash__` but no
`__eq__`, so two runners compare equal exactly when they are the same
object — in particular, distinct runner objects never compare equal,
whether their sequences agree or differ. -/
theorem claim_C7_amended (i j : Nat) (s t : String) (r₁ r₂ : RNArunner)
    (h₁ : create i (.pyStr s) = .ok r₁) (h₂ : create j (.pyStr t) = .ok r₂) :
    (pyUpperStr s = pyUpperStr t → r₁.hashKey = r₂.hashKey) ∧
    (pyEq r₁ r₂ = true ↔ i = j) := by
  obtain ⟨-, -, e₁⟩ := create_ok_inv i s r₁ h₁
  obtain ⟨-, -, e₂⟩ := create_ok_inv j t r₂ h₂
  subst e₁
  subst e₂
  constructor
  · intro h
    simp only [h]
  · simp [pyEq]

/-- Witness for the amended C7: runners from "augc" and "AUGC" share the
hash key; identities 0 and 1 do not compare equal. -/
theorem claim_C7_amended_witness :
    (pyUpperStr "augc" = pyUpperStr "AUGC" →
      ({ sequence := "AUGC", cmd := "RNAFold --noPS", hashKey := "RNAFold --noPSAUGC",
         objId := 0 } : RNArunner).hashKey =
        ({ sequence := "AUGC", cmd := "RNAFold --noPS", hashKey := "RNAFold --noPSAUGC",
           objId := 1 } : RNArunner).hashKey) ∧
    (pyEq { sequence := "AUGC", cmd := "RNAFold --noPS", hashKey := "RNAFold --noPSAUGC",
            objId := 0 }
          { sequence := "AUGC", cmd := "RNAFold --noPS", hashKey := "RNAFold --noPSAUGC",
            objId := 1 } = true ↔ 0 = 1) :=
  claim_C7_amended 0 1 "augc" "AUGC" _ _ rfl rfl

/-- C4 counterexample: for the zero-exit output whose energy line is
"minimum free energy -4.20 kcal/mol" (the pattern text present, but no
equal sign), strategy (c) would recover -4.20, yet the code selects the
branch for strategy (a) because the line contains "minimum free energy",
the subscript `split("=")[1]` fails, and the fold fails with the
EnergyParseError kind — refuting "whenever any strategy recovers a number,
the call does not fail with EnergyParseError". -/
theorem claim_C4_counterexample :
    (mfeRun { sequence := "AAA", cmd := "RNAFold --noPS",
              hashKey := "RNAFold --noPSAAA", objId := 0 }
        { spawnFails := false, spawnErr := "", commRaises := false, exitCode := 0,
          stdoutData := "AAA\n...\nminimum free energy -4.20 kcal/mol",
          stderrData := "", termCode := 0 }).1 =
      .error (.badEnergy "minimum free energy -4.20 kcal/mol") ∧
    (FoldErr.badEnergy "minimum free energy -4.20 kcal/mol").kind = .energyParseKind ∧
    strategyC "minimum free energy -4.20 kcal/mol" = some (-420, 2) ∧
    decValue (-420, 2) = -(21 / 5 : ℚ) := by
  refine ⟨rfl, rfl, rfl, ?_⟩
  norm_num [decValue]

/-- C4 amended: when a structure line is found and followed by a non-empty
line, exactly one extraction strategy is selected by the shape of that line
— (a) when it contains "minimum free energy", otherwise (b) when it starts
with "(" and ends with ")", otherwise (c) the scan for the first signed
decimal number — and the fold fails with the EnergyParseError kind if and
only if that selected strategy recovers no value; a failing selected
strategy is not retried with a later one, and when it does recover a value
the fold returns the structure with that value. -/
theorem claim_C4_amended (r : RNArunner) (b : ProcBehavior)
    (h1 : b.spawnFails = false) (h2 : b.commRaises = false) (h3 : b.exitCode = 0)
    (hlen : ¬ (pyLines b.stdoutData).length < 3)
    (st e : String)
    (hscan : scanLines (pyLines b.stdoutData) = some (st, some e))
    (he : e ≠ "") :
    (errKind (mfeRun r b).1 = some .energyParseKind ↔
        (if pyContains "minimum free energy" e then strategyA e
         else if pyStartsWith "(" e && pyEndsWith ")" e then strategyB e
         else strategyC e) = none) ∧
    (∀ v, (if pyContains "minimum free energy" e then strategyA e
           else if pyStartsWith "(" e && pyEndsWith ")" e then strategyB e
           else strategyC e) = some v →
        (mfeRun r b).1 = .ok (st, v)) := by
  have hres : (mfeRun r b).1 = parseOutput b.stdoutData := by
    simp [mfeRun, h1, h2, h3]
  have hext : (if pyContains "minimum free energy" e then strategyA e
      else if pyStartsWith "(" e && pyEndsWith ")" e then strategyB e
      else strategyC e) = extractEnergy e := rfl
  rw [hres, hext]
  simp only [parseOutput, if_neg hlen, hscan, if_neg he]
  cases hx : extractEnergy e with
  | none => simp [errKind, FoldErr.kind]
  | some v => simp [errKind]

/-- Witness for the amended C4 at the energy line "( -4.20)". -/
theorem claim_C4_amended_witness :
    (errKind (mfeRun { sequence := "AAA", cmd := "RNAFold --noPS",
                       hashKey := "RNAFold --noPSAAA", objId := 0 }
        { spawnFails := false, spawnErr := "", commRaises := false, exitCode := 0,
          stdoutData := "AAA\n...\n( -4.20)", stderrData := "", termCode := 0 }).1 =
          some .energyParseKind ↔
        (if pyContains "minimum free energy" "( -4.20)" then strategyA "( -4.20)"
         else if pyStartsWith "(" "( -4.20)" && pyEndsWith ")" "( -4.20)" then
           strategyB "( -4.20)"
         else strategyC "( -4.20)") = none) ∧
    (∀ v, (if pyContains "minimum free energy" "( -4.20)" then strategyA "( -4.20)"
           else if pyStartsWith "(" "( -4.20)" && pyEndsWith ")" "( -4.20)" then
             strategyB "( -4.20)"
           else strategyC "( -4.20)") = some v →
        (mfeRun { sequence := "AAA", cmd := "RNAFold --noPS",
                  hashKey := "RNAFold --noPSAAA", objId := 0 }
          { spawnFails := false, spawnErr := "", commRaises := false, exitCode := 0,
            stdoutData := "AAA\n...\n( -4.20)", stderrData := "", termCode := 0 }).1 =
          .ok ("...", v)) :=
  claim_C4_amended _ _ rfl rfl rfl (by decide) "..." "( -4.20)" rfl (by decide)

/-- C8: for every input and every fixed subprocess behaviour (same spawn
outcome, exit code and captured streams), the blocking fold —
SyncRNArunner constructs an inner runner and runs its mfe coroutine to
completion — and the non-blocking fold return identical results: the same
(structure, energy) pair or the very same error. -/
theorem claim_C8 (i j : Nat) (inp : PyInput) (b : ProcBehavior) :
    Except.map (fun r => (syncMfeRun r b).1) (syncCreate i inp) =
      Except.map (fun r => (mfeRun r b).1) (create j inp) := by
  cases inp with
  | pyNone => rfl
  | nonString => rfl
  | pyStr s =>
    simp only [syncCreate, create]
    by_cases hs : s = ""
    · simp only [if_pos hs]
      rfl
    · simp only [if_neg hs]
      by_cases hv : validSequence s = true
      · simp only [if_pos hv, Except.map, syncMfeRun]
        exact congrArg Except.ok (mfeRun_result_ignores_runner _ _ b)
      · simp only [if_neg hv]
        rfl

/-- C9: parsing the concrete tool output
"CGCAGGGAUACCCGCG\n((((....))))\n( -4.20)\n" with exit status zero yields
the structure "((((....))))" and energy -4.20 (mantissa -420 with two
fraction digits in the exact-decimal model); and whenever the line after
the structure line is "minimum free energy =  -9.80 kcal/mol", the
extracted energy is -9.80. -/
theorem claim_C9 :
    parseOutput "CGCAGGGAUACCCGCG\n((((....))))\n( -4.20)\n" =
      .ok ("((((....))))", (-420, 2)) ∧
    decValue (-420, 2) = -(21 / 5 : ℚ) ∧
    (∀ raw st, ¬ (pyLines raw).length < 3 →
        scanLines (pyLines raw) =
          some (st, some "minimum free energy =  -9.80 kcal/mol") →
        parseOutput raw = .ok (st, (-980, 2))) ∧
    decValue (-980, 2) = -(49 / 5 : ℚ) := by
  refine ⟨rfl, by norm_num [decValue], ?_, by norm_num [decValue]⟩
  intro raw st hlen hscan
  simp only [parseOutput, if_neg hlen, hscan]
  rfl

/-- Witness for C9 at an output whose energy line uses the verbose
"minimum free energy" format. -/
theorem claim_C9_witness :
    parseOutput "CGCAGGGAUACCCGCG\n((((....))))\nminimum free energy =  -9.80 kcal/mol" =
      .ok ("((((....))))", (-980, 2)) :=
  claim_C9.2.2.1 "CGCAGGGAUACCCGCG\n((((....))))\nminimum free energy =  -9.80 kcal/mol"
    "((((....))))" (by decide) rfl

/-- C10: with exit status zero and at least 3 output lines, when the first
structure line is the last line, or the line following it strips to the
empty string, the fold fails with the "Could not parse structure" error —
the `noStructure` constructor of the MalformedOutput kind, not the
EnergyParseError kind. -/
theorem claim_C10 (r : RNArunner) (b : ProcBehavior)
    (h1 : b.spawnFails = false) (h2 : b.commRaises = false) (h3 : b.exitCode = 0)
    (hlen : ¬ (pyLines b.stdoutData).length < 3)
    (st : String) (eopt : Option String)
    (hscan : scanLines (pyLines b.stdoutData) = some (st, eopt))
    (h4 : eopt = none ∨ eopt = some "") :
    (mfeRun r b).1 = .error (.noStructure b.stdoutData) ∧
    (FoldErr.noStructure b.stdoutData).kind = .malformedOutputKind ∧
    (FoldErr.noStructure b.stdoutData).kind ≠ .energyParseKind := by
  have hres : (mfeRun r b).1 = parseOutput b.stdoutData := by
    simp [mfeRun, h1, h2, h3]
  refine ⟨?_, rfl, by simp [FoldErr.kind]⟩
  rw [hres]
  rcases h4 with h4 | h4
  · subst h4
    simp only [parseOutput, if_neg hlen, hscan]
  · subst h4
    simp only [parseOutput, if_neg hlen, hscan]
    rfl

/-- Witness for C10 at an output whose structure line is its last line. -/
theorem claim_C10_witness :
    (mfeRun { sequence := "AUGC", cmd := "RNAFold --noPS",
              hashKey := "RNAFold --noPSAUGC", objId := 0 }
        { spawnFails := false, spawnErr := "", commRaises := false, exitCode := 0,
          stdoutData := "AAA\nBBB\n...", stderrData := "", termCode := 0 }).1 =
      .error (.noStructure "AAA\nBBB\n...") ∧
    (FoldErr.noStructure "AAA\nBBB\n...").kind = .malformedOutputKind ∧
    (FoldErr.noStructure "AAA\nBBB\n...").kind ≠ .energyParseKind :=
  claim_C10 _ _ rfl rfl rfl (by decide) "..." none rfl (Or.inl rfl)

end Cmdrnafold
